import Mathlib

/-!
# Verification of `nowphas_analyzer.py`

Shallow embedding of the NOWPHAS wave-data analyzer.  The pipeline is:
`read_dir` (directory loader) → sentinel cleaning (`clean`, the
`replace`/`dropna` step of `nowphas_analyzer`) → `totaling` (directional
aggregator) and `frequency_distribution` (per-sector Hs/Tp joint grids).

Numbers are modelled as `ℚ`.  The Japanese column names of the source are
romanized (Lean identifiers cannot carry them): `年月日時` = `datetime`,
`ﾌﾗｸﾞ` = `flag`, `波数` = `wavecount`, `平均波波高/周期` = `avgH/avgT`,
`有義波波高/周期` = `sigH/sigT`, `1/10波波高/周期` = `tenthH/tenthT`,
`最高波波高/周期` = `maxH/maxT`, `波向` = `direction`, `方角` = sector,
`割合` = `prob`, `範囲1/2` = `range1/range2`, `波数合計` = `countSum`.

The pandas primitives used by the source are embedded with their
documented semantics:

* `pd.cut(x, bins, labels)` (default `right=True`, `include_lowest=False`)
  assigns `x` to the first interval `(bins[i], bins[i+1]]`; values outside
  every interval get NaN (`none` here).  This is `pdCut` below.
* `pd.concat([])` raises `ValueError` ("No objects to concatenate"), so
  `read_dir` on a directory with no matching file is an `Except.error`.
* `groupby` drops rows whose group key is NaN; with a categorical key every
  category appears as a group (sum 0 when empty), sorted in category order.
* Scalar division of numpy values by zero yields a non-finite float
  (NaN/inf) with a warning, not an exception; non-finite results are
  modelled as `none` in an `Option ℚ`.
* `pivot_table(..., margins=True)` computes each interior cell by applying
  the aggregation function to the rows matching both keys (NaN-keyed rows
  belong to no group), each row/column margin by grouping on the single
  remaining key, and the grand margin by applying the aggregation function
  to the whole value column, NaN-keyed rows included.
-/

/-- One raw record of a NOWPHAS data file: the 12 columns of `read_file`
(`年月日時, ﾌﾗｸﾞ, 波数, 平均波波高, 平均波周期, 有義波波高, 有義波周期,
1/10波波高, 1/10波周期, 最高波波高, 最高波周期, 波向`), romanized as in the
header comment. -/
structure Obs where
  datetime : ℚ
  flag : ℚ
  wavecount : ℚ
  avgH : ℚ
  avgT : ℚ
  sigH : ℚ
  sigT : ℚ
  tenthH : ℚ
  tenthT : ℚ
  maxH : ℚ
  maxT : ℚ
  direction : ℚ
deriving DecidableEq, Repr

/-- The fields of a record in column order, as scanned by `df.replace`. -/
def Obs.fields (o : Obs) : List ℚ :=
  [o.datetime, o.flag, o.wavecount, o.avgH, o.avgT, o.sigH,
   o.sigT, o.tenthH, o.tenthT, o.maxH, o.maxT, o.direction]

/-- The sentinel list of `nowphas_analyzer` line 189. -/
def sentinels : List ℚ :=
  [66.66, 666.6, 6666, 77.77, 777.7, 7777, 99.99, 999.9, 9999]

/-- A record is dropped when any field carries a sentinel
(`df.replace(sentinels, None)` followed by `df.dropna()`). -/
def hasSentinel (o : Obs) : Bool :=
  o.fields.any (fun v => sentinels.contains v)

/-- The cleaning step of `nowphas_analyzer` (lines 188–190): replace every
sentinel by missing, then drop every row containing a missing field —
i.e. keep exactly the rows with no sentinel field. -/
def clean (rows : List Obs) : List Obs :=
  rows.filter (fun o => !hasSentinel o)

/-- `pd.cut(x, bins, labels, ordered=False)` with the default
`right=True`, `include_lowest=False`: the label of the first interval
`(bins[i], bins[i+1]]` containing `x`, NaN (`none`) when none does. -/
def pdCut {α : Type} (bins : List ℚ) (labels : List α) (x : ℚ) : Option α :=
  match bins, labels with
  | b0 :: b1 :: bs, l :: ls =>
      if b0 < x ∧ x ≤ b1 then some l else pdCut (b1 :: bs) ls x
  | _, _ => none

/-- The direction bins of `totaling` (line 103). -/
def dirBins : List ℚ :=
  [0, 15, 45, 75, 105, 135, 165, 195, 225, 255, 285, 315, 345, 360]

/-- The direction labels of `totaling` (line 104); the duplicated label 1
makes the first and last interval the same wrap-around sector. -/
def dirLabels : List ℕ := [1, 2, 3, 4, 5, 6, 7, 8, 9, 10, 11, 12, 1]

/-- The sector (`方角`) assigned to a direction value by
`pd.cut(df["波向"], bins, labels, ordered=False)` in `totaling`. -/
def sectorOf (d : ℚ) : Option ℕ := pdCut dirBins dirLabels d

/-- Whether a file name matches the glob pattern `[hH]*.txt` of
`read_dir` (line 45): first character `h` or `H`, then anything, then the
literal suffix `.txt`. -/
def globMatch (name : String) : Bool :=
  match name.data with
  | [] => false
  | c :: rest => (c = 'h' || c = 'H') && List.isSuffixOf ".txt".data rest

/-- `df.sort_values("年月日時")`: reorder the concatenated rows by the raw
timestamp field (an unstable comparison sort; any sort producing a
permutation ordered by the timestamp models it). -/
def sortT (rows : List Obs) : List Obs :=
  rows.mergeSort (fun a b => a.datetime ≤ b.datetime)

/-- The directory loader `read_dir`: a directory is a list of
(file name, parsed rows) pairs; the loader keeps the files matching
`[hH]*.txt`, concatenates their rows and sorts by the timestamp.
`pd.concat` of an empty list raises `ValueError`, modelled as
`Except.error`. -/
def read_dir (entries : List (String × List Obs)) : Except String (List Obs) :=
  let files := (entries.filter (fun e => globMatch e.1)).map (fun e => e.2)
  if files.isEmpty then
    Except.error "ValueError: No objects to concatenate"
  else
    Except.ok (sortT files.flatten)

/-- Division of numpy scalars: by a nonzero denominator it is exact
division; by zero it is non-finite (NaN for 0/0, ±inf otherwise), a value
modelled as `none` — a warning is printed but no exception raised. -/
def npDiv (x total : ℚ) : Option ℚ :=
  if total = 0 then none else some (x / total)

/-- The dataframe flowing through `nowphas_analyzer`: the cleaned rows plus
presence flags for the derived columns that `totaling` (`方角`, sector) and
`frequency_distribution` (`Hs`, `Tp`) add in place.  The values of those
columns are pure functions of the rows (`sectorOf`, `pdCut` on the fixed
bins), so only their presence needs tracking. -/
structure DF where
  obs : List Obs
  hasDir : Bool
  hasHsTp : Bool
deriving DecidableEq, Repr

/-- The Directional Frequency Table built by `totaling` (lines 107–111):
index `方角` = 1..12, columns in insertion order `割合` (prob), `範囲1`,
`範囲2`, `波数合計` (countSum). -/
structure DirTable where
  columns : List String
  index : List ℕ
  prob : List (Option ℚ)
  range1 : List ℕ
  range2 : List ℕ
  countSum : List ℚ
deriving DecidableEq, Repr

/-- Sum of `波数` over the rows of sector `k`
(`df.groupby('方角')["波数"].sum()` for one categorical group; rows whose
sector is NaN belong to no group). -/
def sectorCount (obs : List Obs) (k : ℕ) : ℚ :=
  ((obs.filter (fun o => sectorOf o.direction = some k)).map
    (fun o => o.wavecount)).sum

/-- The sector categories: the distinct entries of the `labels` list of
`pd.cut` in order of appearance, which is also the loop
`range(1, 13)` of `frequency_distribution` (line 177). -/
def dirCats : List ℕ := [1, 2, 3, 4, 5, 6, 7, 8, 9, 10, 11, 12]

/-- The twelve per-sector sums, in category order 1..12 (groupby on a
categorical key lists every category, empty ones with sum 0). -/
def dirCounts (obs : List Obs) : List ℚ :=
  dirCats.map (sectorCount obs)

/-- The directional aggregator `totaling` (lines 99–117): assigns the
`方角` column (mutating the shared dataframe), groups by sector, sums
`波数`, computes the grand total and per-sector probability, and builds the
table whose columns are created by `insert(0, "割合")`,
`insert(1, "範囲1")`, `insert(2, "範囲2")` on the one-column frame
`波数合計`.  `範囲1 = list(range(15, 360, 30))` and
`範囲2 = [i % 360 for i in range(345, 690, 30)]`.  The Excel/chart output
is outside the model. -/
def totaling (df : DF) : DF × DirTable :=
  let counts := dirCounts df.obs
  let total := counts.sum
  ({ df with hasDir := true },
   { columns :=
       ((["countSum"].insertIdx 0 "prob").insertIdx 1 "range1").insertIdx
         2 "range2"
     index := dirCats
     prob := counts.map (fun c => npDiv c total)
     range1 := List.range' 15 12 30
     range2 := (List.range' 345 12 30).map (fun i => i % 360)
     countSum := counts })

/-- `round(q, 2)` of Python on the exact quotient: round to 2 decimal
places (ties modelled half-up; Python rounds the nearest binary float to
even, a difference no claim depends on). -/
def round2 (q : ℚ) : ℚ := (⌊q * 100 + 1 / 2⌋ : ℚ) / 100

/-- A pivot key of the Hs/Tp columns: a `pd.cut` category label, a plain
numeric value (the synthetic zero row of `make_dir_df` writes the number 0
into every column), or NaN (a value outside every bin). -/
inductive PKey where
  | bin (s : String)
  | num (q : ℚ)
  | nan
deriving DecidableEq, Repr

/-- One row as seen by the pivot in `make_dir_df`: its `波数` and its `Hs`
and `Tp` keys. -/
structure SRow where
  wavecount : ℚ
  hs : PKey
  tp : PKey
deriving DecidableEq, Repr

/-- Hs bins of `frequency_distribution` (line 167):
`np.arange(0, 10.5, 0.5).tolist() + [999.9]`. -/
def hsBins : List ℚ := (List.range 21).map (fun i => (i : ℚ) / 2) ++ [999.9]

/-- Hs labels (lines 168–172): `"0.0-0.5", "0.5-1.0", …, "9.5-10.0",
">10.0"` — 21 labels. -/
def hsLabels : List String :=
  (List.range 10).flatMap (fun i => [s!"{i}.0-{i}.5", s!"{i}.5-{i+1}.0"])
    ++ [">10.0"]

/-- Tp bins (line 174): `list(range(0, 16, 1)) + [999.9]`. -/
def tpBins : List ℚ := (List.range 16).map (fun i => (i : ℚ)) ++ [999.9]

/-- Tp labels (line 175): `"0-1", …, "14-15", ">15"` — 16 labels. -/
def tpLabels : List String :=
  (List.range 15).map (fun i => s!"{i}-{i+1}") ++ [">15"]

/-- The `Hs` key of an observation: its `pd.cut` label, or NaN when the
significant height falls in no bin (e.g. exactly 0). -/
def hsKey (h : ℚ) : PKey :=
  match pdCut hsBins hsLabels h with
  | some l => PKey.bin l
  | none => PKey.nan

/-- The `Tp` key of an observation. -/
def tpKey (t : ℚ) : PKey :=
  match pdCut tpBins tpLabels t with
  | some l => PKey.bin l
  | none => PKey.nan

/-- Projection of an observation to the pivot columns used by
`make_dir_df`. -/
def toSRow (o : Obs) : SRow :=
  { wavecount := o.wavecount, hs := hsKey o.sigH, tp := tpKey o.sigT }

/-- The rows of sector `k` handed to `make_dir_df`
(`df[df["方角"].isin([dir_no])]`, with the `Hs`/`Tp` columns already
assigned). -/
def sectorRows (obs : List Obs) (k : ℕ) : List SRow :=
  (obs.filter (fun o => sectorOf o.direction = some k)).map toSRow

/-- The Hs/Tp joint grid returned by `make_dir_df`: the displayed row and
column keys and the cell contents (interior cells, the `Total` margins and
the grand `Total` cell). -/
structure Grid where
  rowKeys : List PKey
  colKeys : List PKey
  cell : PKey → PKey → ℚ
  rowMargin : PKey → ℚ
  colMargin : PKey → ℚ
  grand : ℚ

/-- The joint distribution builder `make_dir_df` (lines 120–135).  An empty
subset is replaced by one synthetic row with 0 in every column (whose
`Hs`/`Tp` keys are then the plain number 0, so the pivot shows the single
row/column `0`; a nonempty subset keeps the categorical `Hs`/`Tp` columns,
so with `dropna=False` the pivot shows every category).  `total` is the sum
of `波数` over all rows, NaN-keyed ones included; the aggregation function
is `round(sum(x)/total*100, 2)` when `total ≠ 0` and `0` otherwise
(`fill_value=0` makes empty combinations 0, which the same formula already
yields).  Margins aggregate the rows matching the single key; the grand
margin aggregates every row. -/
def make_dir_df (rows0 : List SRow) : Grid :=
  let rows := if rows0 = [] then [⟨0, PKey.num 0, PKey.num 0⟩] else rows0
  let total := (rows.map (fun r => r.wavecount)).sum
  let agg : List SRow → ℚ := fun g =>
    if total = 0 then 0
    else round2 (((g.map (fun r => r.wavecount)).sum) / total * 100)
  { rowKeys := if rows0 = [] then [PKey.num 0] else hsLabels.map PKey.bin
    colKeys := if rows0 = [] then [PKey.num 0] else tpLabels.map PKey.bin
    cell := fun r c => agg (rows.filter (fun x => x.hs = r ∧ x.tp = c))
    rowMargin := fun r => agg (rows.filter (fun x => x.hs = r))
    colMargin := fun c => agg (rows.filter (fun x => x.tp = c))
    grand := agg rows }

/-- The joint distribution builder `frequency_distribution`
(lines 163–179): requires the `方角` column (a `KeyError` if `totaling` has
not run), assigns the `Hs` and `Tp` columns in place, and builds one grid
per sector 1..12.  The Excel output is outside the model. -/
def frequency_distribution (df : DF) :
    Except String (DF × List Grid) :=
  if df.hasDir then
    Except.ok ({ df with hasHsTp := true },
      dirCats.map (fun k => make_dir_df (sectorRows df.obs k)))
  else
    Except.error "KeyError: 方角"

/-- The lower bin edge of sector `k` (`2 ≤ k ≤ 12`) as in the claim:
`15 + 30·(k−2)`. -/
def bandLow (k : ℕ) : ℚ := 15 + 30 * ((k : ℚ) - 2)

/-- A clean sample observation: timestamp 2020010101, 5 waves from
direction 10°, significant height 1.2 m, significant period 6 s. -/
def obsA : Obs := ⟨2020010101, 0, 5, 1, 5, 1.2, 6, 1.5, 7, 2, 8, 10⟩

/-- A clean sample observation: 3 waves from direction 200°, significant
height 0.3 m, significant period 2 s. -/
def obsB : Obs := ⟨2020010102, 0, 3, 1, 5, 0.3, 2, 1.5, 7, 2, 8, 200⟩

/-- A sample observation carrying the sentinel 999.9 in its direction
field. -/
def obsBad : Obs := ⟨2020010103, 0, 5, 1, 5, 1.2, 6, 1.5, 7, 2, 8, 999.9⟩

/-- A sector subset as seen by the pivot: one NaN-keyed row (an
observation whose significant height and period fall in no bin) next to
one properly binned row, each with one wave. -/
def nanRows : List SRow :=
  [⟨1, PKey.nan, PKey.nan⟩, ⟨1, PKey.bin "0.0-0.5", PKey.bin "1-2"⟩]

/-! ## Sector assignment (C1)

`sectorOf` unfolds to a chain of half-open interval tests; the bands below
restate each interval, and `dirRegionSplit` shows the thirteen intervals
cover `(0, 360]`. -/

theorem sectorOf_eq (d : ℚ) : sectorOf d =
    if 0 < d ∧ d ≤ 15 then some 1
    else if 15 < d ∧ d ≤ 45 then some 2
    else if 45 < d ∧ d ≤ 75 then some 3
    else if 75 < d ∧ d ≤ 105 then some 4
    else if 105 < d ∧ d ≤ 135 then some 5
    else if 135 < d ∧ d ≤ 165 then some 6
    else if 165 < d ∧ d ≤ 195 then some 7
    else if 195 < d ∧ d ≤ 225 then some 8
    else if 225 < d ∧ d ≤ 255 then some 9
    else if 255 < d ∧ d ≤ 285 then some 10
    else if 285 < d ∧ d ≤ 315 then some 11
    else if 315 < d ∧ d ≤ 345 then some 12
    else if 345 < d ∧ d ≤ 360 then some 1
    else none := rfl

theorem band1 (d : ℚ) (ha : 0 < d) (hb : d ≤ 15) : sectorOf d = some 1 := by
  rw [sectorOf_eq, if_pos ⟨ha, hb⟩]

theorem band2 (d : ℚ) (ha : 15 < d) (hb : d ≤ 45) : sectorOf d = some 2 := by
  rw [sectorOf_eq, if_neg (by rintro ⟨x, y⟩; linarith), if_pos ⟨ha, hb⟩]

theorem band3 (d : ℚ) (ha : 45 < d) (hb : d ≤ 75) : sectorOf d = some 3 := by
  rw [sectorOf_eq,
    if_neg (by rintro ⟨x, y⟩; linarith), if_neg (by rintro ⟨x, y⟩; linarith),
    if_pos ⟨ha, hb⟩]

theorem band4 (d : ℚ) (ha : 75 < d) (hb : d ≤ 105) : sectorOf d = some 4 := by
  rw [sectorOf_eq,
    if_neg (by rintro ⟨x, y⟩; linarith), if_neg (by rintro ⟨x, y⟩; linarith),
    if_neg (by rintro ⟨x, y⟩; linarith), if_pos ⟨ha, hb⟩]

theorem band5 (d : ℚ) (ha : 105 < d) (hb : d ≤ 135) : sectorOf d = some 5 := by
  rw [sectorOf_eq,
    if_neg (by rintro ⟨x, y⟩; linarith), if_neg (by rintro ⟨x, y⟩; linarith),
    if_neg (by rintro ⟨x, y⟩; linarith), if_neg (by rintro ⟨x, y⟩; linarith),
    if_pos ⟨ha, hb⟩]

theorem band6 (d : ℚ) (ha : 135 < d) (hb : d ≤ 165) : sectorOf d = some 6 := by
  rw [sectorOf_eq,
    if_neg (by rintro ⟨x, y⟩; linarith), if_neg (by rintro ⟨x, y⟩; linarith),
    if_neg (by rintro ⟨x, y⟩; linarith), if_neg (by rintro ⟨x, y⟩; linarith),
    if_neg (by rintro ⟨x, y⟩; linarith), if_pos ⟨ha, hb⟩]

theorem band7 (d : ℚ) (ha : 165 < d) (hb : d ≤ 195) : sectorOf d = some 7 := by
  rw [sectorOf_eq,
    if_neg (by rintro ⟨x, y⟩; linarith), if_neg (by rintro ⟨x, y⟩; linarith),
    if_neg (by rintro ⟨x, y⟩; linarith), if_neg (by rintro ⟨x, y⟩; linarith),
    if_neg (by rintro ⟨x, y⟩; linarith), if_neg (by rintro ⟨x, y⟩; linarith),
    if_pos ⟨ha, hb⟩]

theorem band8 (d : ℚ) (ha : 195 < d) (hb : d ≤ 225) : sectorOf d = some 8 := by
  rw [sectorOf_eq,
    if_neg (by rintro ⟨x, y⟩; linarith), if_neg (by rintro ⟨x, y⟩; linarith),
    if_neg (by rintro ⟨x, y⟩; linarith), if_neg (by rintro ⟨x, y⟩; linarith),
    if_neg (by rintro ⟨x, y⟩; linarith), if_neg (by rintro ⟨x, y⟩; linarith),
    if_neg (by rintro ⟨x, y⟩; linarith), if_pos ⟨ha, hb⟩]

theorem band9 (d : ℚ) (ha : 225 < d) (hb : d ≤ 255) : sectorOf d = some 9 := by
  rw [sectorOf_eq,
    if_neg (by rintro ⟨x, y⟩; linarith), if_neg (by rintro ⟨x, y⟩; linarith),
    if_neg (by rintro ⟨x, y⟩; linarith), if_neg (by rintro ⟨x, y⟩; linarith),
    if_neg (by rintro ⟨x, y⟩; linarith), if_neg (by rintro ⟨x, y⟩; linarith),
    if_neg (by rintro ⟨x, y⟩; linarith), if_neg (by rintro ⟨x, y⟩; linarith),
    if_pos ⟨ha, hb⟩]

theorem band10 (d : ℚ) (ha : 255 < d) (hb : d ≤ 285) : sectorOf d = some 10 := by
  rw [sectorOf_eq,
    if_neg (by rintro ⟨x, y⟩; linarith), if_neg (by rintro ⟨x, y⟩; linarith),
    if_neg (by rintro ⟨x, y⟩; linarith), if_neg (by rintro ⟨x, y⟩; linarith),
    if_neg (by rintro ⟨x, y⟩; linarith), if_neg (by rintro ⟨x, y⟩; linarith),
    if_neg (by rintro ⟨x, y⟩; linarith), if_neg (by rintro ⟨x, y⟩; linarith),
    if_neg (by rintro ⟨x, y⟩; linarith), if_pos ⟨ha, hb⟩]

theorem band11 (d : ℚ) (ha : 285 < d) (hb : d ≤ 315) : sectorOf d = some 11 := by
  rw [sectorOf_eq,
    if_neg (by rintro ⟨x, y⟩; linarith), if_neg (by rintro ⟨x, y⟩; linarith),
    if_neg (by rintro ⟨x, y⟩; linarith), if_neg (by rintro ⟨x, y⟩; linarith),
    if_neg (by rintro ⟨x, y⟩; linarith), if_neg (by rintro ⟨x, y⟩; linarith),
    if_neg (by rintro ⟨x, y⟩; linarith), if_neg (by rintro ⟨x, y⟩; linarith),
    if_neg (by rintro ⟨x, y⟩; linarith), if_neg (by rintro ⟨x, y⟩; linarith),
    if_pos ⟨ha, hb⟩]

theorem band12 (d : ℚ) (ha : 315 < d) (hb : d ≤ 345) : sectorOf d = some 12 := by
  rw [sectorOf_eq,
    if_neg (by rintro ⟨x, y⟩; linarith), if_neg (by rintro ⟨x, y⟩; linarith),
    if_neg (by rintro ⟨x, y⟩; linarith), if_neg (by rintro ⟨x, y⟩; linarith),
    if_neg (by rintro ⟨x, y⟩; linarith), if_neg (by rintro ⟨x, y⟩; linarith),
    if_neg (by rintro ⟨x, y⟩; linarith), if_neg (by rintro ⟨x, y⟩; linarith),
    if_neg (by rintro ⟨x, y⟩; linarith), if_neg (by rintro ⟨x, y⟩; linarith),
    if_neg (by rintro ⟨x, y⟩; linarith), if_pos ⟨ha, hb⟩]

theorem band13 (d : ℚ) (ha : 345 < d) (hb : d ≤ 360) : sectorOf d = some 1 := by
  rw [sectorOf_eq,
    if_neg (by rintro ⟨x, y⟩; linarith), if_neg (by rintro ⟨x, y⟩; linarith),
    if_neg (by rintro ⟨x, y⟩; linarith), if_neg (by rintro ⟨x, y⟩; linarith),
    if_neg (by rintro ⟨x, y⟩; linarith), if_neg (by rintro ⟨x, y⟩; linarith),
    if_neg (by rintro ⟨x, y⟩; linarith), if_neg (by rintro ⟨x, y⟩; linarith),
    if_neg (by rintro ⟨x, y⟩; linarith), if_neg (by rintro ⟨x, y⟩; linarith),
    if_neg (by rintro ⟨x, y⟩; linarith), if_neg (by rintro ⟨x, y⟩; linarith),
    if_pos ⟨ha, hb⟩]

/-- For a mid sector `2 ≤ k ≤ 12`, a direction in `(bandLow k, bandLow k + 30]`
is assigned sector `k`. -/
theorem band_mid (k : ℕ) (hk2 : 2 ≤ k) (hk12 : k ≤ 12) (d : ℚ)
    (ha : bandLow k < d) (hb : d ≤ bandLow k + 30) : sectorOf d = some k := by
  unfold bandLow at ha hb
  interval_cases k <;> push_cast at ha hb <;> norm_num at ha hb
  · exact band2 d ha hb
  · exact band3 d ha hb
  · exact band4 d ha hb
  · exact band5 d ha hb
  · exact band6 d ha hb
  · exact band7 d ha hb
  · exact band8 d ha hb
  · exact band9 d ha hb
  · exact band10 d ha hb
  · exact band11 d ha hb
  · exact band12 d ha hb

/-- The thirteen cut intervals cover `(0, 360]`: every direction lies in
sector 1's low band, sector 1's high band, or a mid band. -/
theorem dirRegionSplit (d : ℚ) (h1 : 0 < d) (h2 : d ≤ 360) :
    (0 < d ∧ d ≤ 15) ∨ (345 < d ∧ d ≤ 360) ∨
      ∃ k : ℕ, 2 ≤ k ∧ k ≤ 12 ∧ bandLow k < d ∧ d ≤ bandLow k + 30 := by
  rcases le_or_lt d 15 with h | h
  · exact Or.inl ⟨h1, h⟩
  rcases lt_or_le 345 d with h' | h'
  · exact Or.inr (Or.inl ⟨h', h2⟩)
  refine Or.inr (Or.inr ?_)
  rcases le_or_lt d 45 with hx | hx
  · exact ⟨2, by norm_num, by norm_num, by unfold bandLow; push_cast; linarith,
      by unfold bandLow; push_cast; linarith⟩
  rcases le_or_lt d 75 with hy | hy
  · exact ⟨3, by norm_num, by norm_num, by unfold bandLow; push_cast; linarith,
      by unfold bandLow; push_cast; linarith⟩
  rcases le_or_lt d 105 with hz | hz
  · exact ⟨4, by norm_num, by norm_num, by unfold bandLow; push_cast; linarith,
      by unfold bandLow; push_cast; linarith⟩
  rcases le_or_lt d 135 with hx1 | hx1
  · exact ⟨5, by norm_num, by norm_num, by unfold bandLow; push_cast; linarith,
      by unfold bandLow; push_cast; linarith⟩
  rcases le_or_lt d 165 with hx2 | hx2
  · exact ⟨6, by norm_num, by norm_num, by unfold bandLow; push_cast; linarith,
      by unfold bandLow; push_cast; linarith⟩
  rcases le_or_lt d 195 with hx3 | hx3
  · exact ⟨7, by norm_num, by norm_num, by unfold bandLow; push_cast; linarith,
      by unfold bandLow; push_cast; linarith⟩
  rcases le_or_lt d 225 with hx4 | hx4
  · exact ⟨8, by norm_num, by norm_num, by unfold bandLow; push_cast; linarith,
      by unfold bandLow; push_cast; linarith⟩
  rcases le_or_lt d 255 with hx5 | hx5
  · exact ⟨9, by norm_num, by norm_num, by unfold bandLow; push_cast; linarith,
      by unfold bandLow; push_cast; linarith⟩
  rcases le_or_lt d 285 with hx6 | hx6
  · exact ⟨10, by norm_num, by norm_num, by unfold bandLow; push_cast; linarith,
      by unfold bandLow; push_cast; linarith⟩
  rcases le_or_lt d 315 with hx7 | hx7
  · exact ⟨11, by norm_num, by norm_num, by unfold bandLow; push_cast; linarith,
      by unfold bandLow; push_cast; linarith⟩
  exact ⟨12, by norm_num, by norm_num, by unfold bandLow; push_cast; linarith,
    by unfold bandLow; push_cast; linarith⟩

/-- C1 (amended): the cut intervals are right-closed, not right-open, and the
boundary value 0 gets no sector.  For every direction `d` with `0 < d ≤ 360`
the assignment is total (and unique, `sectorOf` being a function); sector 1
exactly covers `(345, 360] ∪ (0, 15]`, and for `k` in 2..12 sector `k`
exactly covers `(15 + 30·(k−2), 45 + 30·(k−2)]`. -/
theorem sector_assignment_total (d : ℚ) (h1 : 0 < d) (h2 : d ≤ 360) :
    (sectorOf d).isSome = true ∧
    (sectorOf d = some 1 ↔ (345 < d ∧ d ≤ 360) ∨ (0 < d ∧ d ≤ 15)) ∧
    (∀ k : ℕ, 2 ≤ k → k ≤ 12 →
      (sectorOf d = some k ↔
        15 + 30 * ((k : ℚ) - 2) < d ∧ d ≤ 45 + 30 * ((k : ℚ) - 2))) := by
  rcases dirRegionSplit d h1 h2 with hr | hr | ⟨k0, hk02, hk012, hlo, hhi⟩
  · have e := band1 d hr.1 hr.2
    refine ⟨by rw [e]; rfl, by rw [e]; simp [hr.1, hr.2], ?_⟩
    intro k hk2 hk12
    rw [e]
    constructor
    · intro he
      exact absurd (Option.some.inj he).symm (by omega)
    · rintro ⟨ha', hb'⟩
      exfalso
      have hkq : (2 : ℚ) ≤ (k : ℚ) := by exact_mod_cast hk2
      linarith [hr.2]
  · have e := band13 d hr.1 hr.2
    refine ⟨by rw [e]; rfl, by rw [e]; simp [hr.1, hr.2], ?_⟩
    intro k hk2 hk12
    rw [e]
    constructor
    · intro he
      exact absurd (Option.some.inj he).symm (by omega)
    · rintro ⟨ha', hb'⟩
      exfalso
      have hkq : (k : ℚ) ≤ 12 := by exact_mod_cast hk12
      linarith [hr.1]
  · have e := band_mid k0 hk02 hk012 d hlo hhi
    unfold bandLow at hlo hhi
    have hq2 : (2 : ℚ) ≤ (k0 : ℚ) := by exact_mod_cast hk02
    have hq12 : (k0 : ℚ) ≤ 12 := by exact_mod_cast hk012
    refine ⟨by rw [e]; rfl, ?_, ?_⟩
    · rw [e]
      constructor
      · intro he
        exact absurd (Option.some.inj he) (by omega)
      · rintro (⟨a, b⟩ | ⟨a, b⟩) <;> exfalso <;> linarith
    · intro k hk2 hk12
      rw [e]
      constructor
      · intro he
        have hek : k0 = k := Option.some.inj he
        subst hek
        exact ⟨hlo, by linarith⟩
      · rintro ⟨ha', hb'⟩
        have c1 : (k0 : ℚ) < (k : ℚ) + 1 := by linarith
        have c2 : (k : ℚ) < (k0 : ℚ) + 1 := by linarith
        have d1 : k0 < k + 1 := by exact_mod_cast c1
        have d2 : k < k0 + 1 := by exact_mod_cast c2
        have : k0 = k := by omega
        rw [this]

/-- C1 counterexample: the claim's half-open-from-the-left reading fails at
the concrete inputs 0 and 15.  Direction 0 (claimed to belong to sector 1)
is assigned no sector, and direction 15 (claimed to start sector 2's bin
`[15, 45)`) is assigned sector 1. -/
theorem sector_assignment_claim_false :
    sectorOf 0 = none ∧ sectorOf 15 = some 1 := by
  constructor <;> rfl

/-- Witness for `sector_assignment_total` at `d = 200`: sector 8 covers
`(195, 225]`. -/
theorem sector_assignment_total_witness :
    (sectorOf 200).isSome = true ∧ sectorOf 200 = some 8 := by
  have h := sector_assignment_total 200 (by norm_num) (by norm_num)
  refine ⟨h.1, ?_⟩
  exact (h.2.2 8 (by norm_num) (by norm_num)).mpr (by norm_num)

/-! ## The Directional Frequency Table (C2, C4, C6) -/

/-- Sum of a list of exact quotients with a common denominator. -/
theorem list_sum_map_div (l : List ℚ) (c : ℚ) :
    (l.map (fun x => x / c)).sum = l.sum / c := by
  induction l with
  | nil => simp
  | cons a t ih => simp [ih, add_div]

/-- The twelve sector count sums have twelve entries. -/
theorem dirCounts_length (obs : List Obs) : (dirCounts obs).length = 12 := by
  simp [dirCounts, dirCats]

/-- When the grand total is 0 every probability entry is `0 / 0`,
the non-finite NaN (`none`). -/
theorem prob_nan_of_total_zero (df : DF) (h : (dirCounts df.obs).sum = 0) :
    (totaling df).2.prob = List.replicate 12 none := by
  have hmem : ∀ b ∈ (dirCounts df.obs).map
      (fun c => npDiv c (dirCounts df.obs).sum), b = (none : Option ℚ) := by
    intro b hb
    rcases List.mem_map.mp hb with ⟨c, _, hc⟩
    rw [← hc]
    simp [npDiv, h]
  have hgoal : (totaling df).2.prob =
      (dirCounts df.obs).map (fun c => npDiv c (dirCounts df.obs).sum) := rfl
  rw [hgoal, List.eq_replicate_iff]
  exact ⟨by simp [dirCounts_length], hmem⟩

/-- On the empty dataset the grand total is 0. -/
theorem dirCounts_sum_nil : (dirCounts ([] : List Obs)).sum = 0 := by
  simp [dirCounts, dirCats, sectorCount]

/-- C2 (amended): the table's columns are, in insertion order, `割合`
(probability), `範囲1`, `範囲2`, `波数合計` (count); no representative-bearing
`value` column exists — the sector number 1..12 is the row index, and the
range columns hold the fixed values `range(15, 360, 30)` and
`[i % 360 for i in range(345, 690, 30)]`. -/
theorem dir_table_columns (df : DF) :
    (totaling df).2.columns = ["prob", "range1", "range2", "countSum"] ∧
    (totaling df).2.index = [1, 2, 3, 4, 5, 6, 7, 8, 9, 10, 11, 12] ∧
    (totaling df).2.range1 =
      [15, 45, 75, 105, 135, 165, 195, 225, 255, 285, 315, 345] ∧
    (totaling df).2.range2 =
      [345, 15, 45, 75, 105, 135, 165, 195, 225, 255, 285, 315] := by
  refine ⟨rfl, rfl, rfl, rfl⟩

/-- C2 counterexample: the claimed layout — columns ordered `range1`,
`range2`, `value`, `probability`, `count` — does not match the table built
by `totaling`: the probability column comes first and no `value`
(representative bearing) column exists at all. -/
theorem dir_table_columns_claim_false :
    (totaling ⟨[], false, false⟩).2.columns ≠
      ["range1", "range2", "value", "prob", "countSum"] ∧
    "value" ∉ (totaling ⟨[], false, false⟩).2.columns := by
  constructor <;> decide

/-- C4 (amended): when the grand total of wave-counts is 0 the per-sector
probability is the non-finite float NaN (`none`) — not the number zero —
for every sector, and the aggregation raises no division-by-zero error
(`totaling` always returns a table; numpy division by zero only warns). -/
theorem zero_total_prob_nan (df : DF) (h : (dirCounts df.obs).sum = 0) :
    (totaling df).2.prob = List.replicate 12 none :=
  prob_nan_of_total_zero df h

/-- Witness for `zero_total_prob_nan` at the empty dataset. -/
theorem zero_total_prob_nan_witness :
    (totaling ⟨[], false, false⟩).2.prob = List.replicate 12 none :=
  zero_total_prob_nan ⟨[], false, false⟩ dirCounts_sum_nil

/-- C4 counterexample: on the empty dataset (grand total 0) the probability
column does not hold the number 0 in every sector — each entry is NaN. -/
theorem zero_total_prob_not_zero :
    (totaling ⟨[], false, false⟩).2.prob ≠ List.replicate 12 (some 0) := by
  rw [prob_nan_of_total_zero ⟨[], false, false⟩ dirCounts_sum_nil]
  decide

/-- C6 (amended): whenever the grand total of wave-counts is positive, the
twelve per-sector probabilities sum to exactly 1; when the dataset is empty
the count column is all-zero but the table is not all-zero: each
probability is NaN and the range columns keep their fixed nonzero
values. -/
theorem prob_sum_one (df : DF) :
    (0 < (dirCounts df.obs).sum →
      (((totaling df).2.prob).map (fun o => o.getD 0)).sum = 1) ∧
    (df.obs = [] →
      (totaling df).2.countSum = List.replicate 12 0 ∧
      (totaling df).2.prob = List.replicate 12 none ∧
      (totaling df).2.range1 ≠ List.replicate 12 0) := by
  constructor
  · intro hpos
    have hne : (dirCounts df.obs).sum ≠ 0 := ne_of_gt hpos
    have hprob : (totaling df).2.prob =
        (dirCounts df.obs).map (fun c => npDiv c (dirCounts df.obs).sum) := rfl
    rw [hprob, List.map_map]
    have hfun : ((fun o => Option.getD o 0) ∘
        fun c => npDiv c (dirCounts df.obs).sum) =
        fun c => c / (dirCounts df.obs).sum := by
      funext c
      simp [npDiv, hne]
    rw [hfun, list_sum_map_div, div_self hne]
  · intro hobs
    refine ⟨?_, ?_, ?_⟩
    · have hcs : (totaling df).2.countSum = dirCounts df.obs := rfl
      rw [hcs, hobs]
      decide
    · apply prob_nan_of_total_zero
      rw [hobs]
      exact dirCounts_sum_nil
    · have hr : (totaling df).2.range1 =
          [15, 45, 75, 105, 135, 165, 195, 225, 255, 285, 315, 345] := rfl
      rw [hr]
      decide

/-- C6 counterexample: on the empty dataset the table is not all-zero: the
`範囲1` column still holds its fixed nonzero values. -/
theorem empty_table_not_all_zero :
    (totaling ⟨[], false, false⟩).2.range1 ≠ List.replicate 12 0 := by
  decide

/-- Witness for `prob_sum_one`: with the single 5-wave observation from
direction 10° the probabilities sum to 1, and on the empty dataset the
count column is all zeros. -/
theorem prob_sum_one_witness :
    (((totaling ⟨[obsA], false, false⟩).2.prob).map (fun o => o.getD 0)).sum
        = 1 ∧
    (totaling ⟨[], false, false⟩).2.countSum = List.replicate 12 0 := by
  have hpos : 0 < (dirCounts [obsA]).sum := by
    norm_num [dirCounts, dirCats, sectorCount, sectorOf, pdCut, dirBins,
      dirLabels, obsA]
  exact ⟨(prob_sum_one ⟨[obsA], false, false⟩).1 hpos,
    ((prob_sum_one ⟨[], false, false⟩).2 rfl).1⟩

/-! ## The directory loader (C3, C9) -/

/-- C3 (amended): a directory with no file matching `[hH]*.txt` — in
particular an empty directory — makes the loading step fail: concatenating
zero frames raises `ValueError`.  A directory with at least one matching
file loads normally. -/
theorem read_dir_no_match_error (entries : List (String × List Obs)) :
    (entries.filter (fun e => globMatch e.1) = [] →
      read_dir entries = Except.error "ValueError: No objects to concatenate") ∧
    (entries.filter (fun e => globMatch e.1) ≠ [] →
      ∃ rows, read_dir entries = Except.ok rows) := by
  constructor
  · intro h
    simp [read_dir, h]
  · intro h
    simp only [read_dir, List.isEmpty_eq_true, List.map_eq_nil_iff]
    rw [if_neg h]
    exact ⟨_, rfl⟩

/-- Witness for `read_dir_no_match_error`: the empty directory errors, a
directory whose file list is `["data2020.csv"]` errors, and a directory
holding the matching file `h2020.txt` loads. -/
theorem read_dir_no_match_error_witness :
    read_dir [] = Except.error "ValueError: No objects to concatenate" ∧
    read_dir [("data2020.csv", [obsA])] =
      Except.error "ValueError: No objects to concatenate" ∧
    ∃ rows, read_dir [("h2020.txt", [obsA])] = Except.ok rows := by
  refine ⟨(read_dir_no_match_error []).1 rfl,
    (read_dir_no_match_error [("data2020.csv", [obsA])]).1 (by decide),
    (read_dir_no_match_error [("h2020.txt", [obsA])]).2 (by decide)⟩

/-- C3 counterexample: loading an empty directory is an error, not an
empty dataset (`pd.concat` refuses an empty list of frames). -/
theorem read_dir_empty_is_error :
    read_dir [] = Except.error "ValueError: No objects to concatenate" := by
  rfl

/-! ## Shared read-only input and mutation (C8) -/

/-- C8 (amended): both steps leave the observation rows themselves
unchanged, but the shared dataframe is not unmodified: `totaling` adds the
`方角` column, and `frequency_distribution` requires exactly that column —
run before it, it fails with a `KeyError`, run after it, it succeeds and
its grids depend only on the rows.  (`totaling` reads nothing the builder
produces, so the reverse dependence indeed does not exist.) -/
theorem aggregator_builder_frame (df : DF) :
    (totaling df).1.obs = df.obs ∧
    (totaling df).1.hasDir = true ∧
    (df.hasDir = true → frequency_distribution df =
      Except.ok (⟨df.obs, true, true⟩,
        dirCats.map (fun k => make_dir_df (sectorRows df.obs k)))) ∧
    (df.hasDir = false →
      frequency_distribution df = Except.error "KeyError: 方角") := by
  obtain ⟨obs, hd, ht⟩ := df
  refine ⟨rfl, rfl, ?_, ?_⟩ <;> intro h <;> subst h <;> rfl

/-- Witness for `aggregator_builder_frame` on the dataframe holding
`obsA`: without the sector column the builder fails; after `totaling` has
added it, the builder succeeds. -/
theorem aggregator_builder_frame_witness :
    frequency_distribution ⟨[obsA], false, false⟩ =
      Except.error "KeyError: 方角" ∧
    frequency_distribution ⟨[obsA], true, false⟩ =
      Except.ok (⟨[obsA], true, true⟩,
        dirCats.map (fun k => make_dir_df (sectorRows [obsA] k))) :=
  ⟨(aggregator_builder_frame ⟨[obsA], false, false⟩).2.2.2 rfl,
    (aggregator_builder_frame ⟨[obsA], true, false⟩).2.2.1 rfl⟩

/-- C8 counterexample: the aggregator does modify the shared dataframe (it
returns it with the sector column added), and the builder's result does
depend on the aggregator having run — invoked on the cleaned dataframe
directly it raises a `KeyError` instead of producing grids. -/
theorem aggregator_mutates_builder_depends :
    (totaling ⟨[], false, false⟩).1 ≠ ⟨[], false, false⟩ ∧
    frequency_distribution ⟨[], false, false⟩ =
      Except.error "KeyError: 方角" := by
  exact ⟨by decide, rfl⟩

/-- C9 (confirmed): loading a directory holding two files equals, as a
multiset of records, the union of the two single-file loads, once each is
cleaned — the sort is a permutation and the cleaner a filter, so
sort-and-merge commutes with union up to order. -/
theorem loader_union (n1 n2 : String) (rows1 rows2 : List Obs)
    (h1 : globMatch n1 = true) (h2 : globMatch n2 = true) :
    read_dir [(n1, rows1), (n2, rows2)] =
      Except.ok (sortT (rows1 ++ rows2)) ∧
    read_dir [(n1, rows1)] = Except.ok (sortT rows1) ∧
    read_dir [(n2, rows2)] = Except.ok (sortT rows2) ∧
    (clean (sortT (rows1 ++ rows2))).Perm
      (clean (sortT rows1) ++ clean (sortT rows2)) := by
  refine ⟨?_, ?_, ?_, ?_⟩
  · simp [read_dir, List.filter, h1, h2]
  · simp [read_dir, List.filter, h1]
  · simp [read_dir, List.filter, h2]
  · have p1 : (clean (sortT (rows1 ++ rows2))).Perm (clean (rows1 ++ rows2)) :=
      List.Perm.filter _ (List.mergeSort_perm _ _)
    have p2 : (clean rows1 ++ clean rows2).Perm
        (clean (sortT rows1) ++ clean (sortT rows2)) :=
      List.Perm.append
        (List.Perm.filter _ (List.mergeSort_perm _ _)).symm
        (List.Perm.filter _ (List.mergeSort_perm _ _)).symm
    have p2' : (clean (rows1 ++ rows2)).Perm
        (clean (sortT rows1) ++ clean (sortT rows2)) := by
      rw [clean, List.filter_append]
      exact p2
    exact p1.trans p2'

/-- Witness for `loader_union` on the files `h2020.txt` = `[obsA]` and
`h2021.txt` = `[obsB]`. -/
theorem loader_union_witness :
    read_dir [("h2020.txt", [obsA]), ("h2021.txt", [obsB])] =
      Except.ok (sortT ([obsA] ++ [obsB])) ∧
    (clean (sortT ([obsA] ++ [obsB]))).Perm
      (clean (sortT [obsA]) ++ clean (sortT [obsB])) := by
  have h := loader_union "h2020.txt" "h2021.txt" [obsA] [obsB]
    (by decide) (by decide)
  exact ⟨h.1, h.2.2.2⟩

/-! ## The data cleaner (C7) -/

/-- C7 (confirmed): a record carrying a sentinel in any field is discarded
whole by the cleaner, wherever it sits in the dataset, and contributes to
no downstream table: the directional table and all twelve sector grids
computed after cleaning are the same with and without it. -/
theorem sentinel_record_dropped (pre post : List Obs) (r : Obs)
    (h : hasSentinel r = true) :
    clean (pre ++ r :: post) = clean (pre ++ post) ∧
    r ∉ clean (pre ++ r :: post) ∧
    (totaling ⟨clean (pre ++ r :: post), false, false⟩).2 =
      (totaling ⟨clean (pre ++ post), false, false⟩).2 ∧
    frequency_distribution (totaling ⟨clean (pre ++ r :: post), false, false⟩).1 =
      frequency_distribution (totaling ⟨clean (pre ++ post), false, false⟩).1 := by
  have hdrop : clean (pre ++ r :: post) = clean (pre ++ post) := by
    simp [clean, List.filter_append, List.filter_cons, h]
  refine ⟨hdrop, ?_, by rw [hdrop], by rw [hdrop]⟩
  intro hmem
  have hkeep := List.of_mem_filter hmem
  rw [h] at hkeep
  exact Bool.noConfusion hkeep

/-- Witness for `sentinel_record_dropped`: the record with direction 999.9
is dropped from the dataset `[obsA, obsBad]`. -/
theorem sentinel_record_dropped_witness :
    clean ([obsA] ++ obsBad :: []) = clean ([obsA] ++ []) ∧
    obsBad ∉ clean ([obsA] ++ obsBad :: []) := by
  have hbad : hasSentinel obsBad = true := by
    norm_num [hasSentinel, Obs.fields, sentinels, obsBad]
  have h := sentinel_record_dropped [obsA] [] obsBad hbad
  exact ⟨h.1, h.2.1⟩

/-! ## The Hs/Tp joint grids (C5, C10) -/

/-- Python's `round(100.0, 2)` is 100. -/
theorem round2_100 : round2 (100 : ℚ) = 100 := by
  unfold round2
  norm_num

/-- The grand `Total` cell of a sector grid is exactly 100 whenever the
sector's wave-count total is nonzero: the grand margin applies the
aggregation function to every row, so it computes
`round(total / total * 100, 2)`. -/
theorem grand_margin_100 (rows : List SRow)
    (h : (rows.map (fun r => r.wavecount)).sum ≠ 0) :
    (make_dir_df rows).grand = 100 := by
  have hne : rows ≠ [] := by
    rintro rfl
    simp at h
  have e : (make_dir_df rows).grand =
      if (rows.map (fun r => r.wavecount)).sum = 0 then 0
      else round2 ((rows.map (fun r => r.wavecount)).sum /
        (rows.map (fun r => r.wavecount)).sum * 100) := by
    simp [make_dir_df, hne]
  rw [e, if_neg h, div_self h, one_mul, round2_100]

/-- C5 (confirmed): whenever a sector's wave-count total is nonzero its
grid's grand `Total` cell is exactly 100; a sector with no observations is
replaced by the synthetic zero row, so its grid is the single all-zero
row/column labelled `0` (with zero margins) — never omitted, and the pivot
never runs on an empty set. -/
theorem grid_grand_100_and_empty_row (rows : List SRow) :
    ((rows.map (fun r => r.wavecount)).sum ≠ 0 →
      (make_dir_df rows).grand = 100) ∧
    (rows = [] →
      (make_dir_df rows).rowKeys = [PKey.num 0] ∧
      (make_dir_df rows).colKeys = [PKey.num 0] ∧
      (∀ r c, (make_dir_df rows).cell r c = 0) ∧
      (∀ r, (make_dir_df rows).rowMargin r = 0) ∧
      (∀ c, (make_dir_df rows).colMargin c = 0) ∧
      (make_dir_df rows).grand = 0) := by
  constructor
  · exact fun h => grand_margin_100 rows h
  · rintro rfl
    refine ⟨by simp [make_dir_df], by simp [make_dir_df], ?_, ?_, ?_, ?_⟩
    · intro r c
      simp [make_dir_df]
    · intro r
      simp [make_dir_df]
    · intro c
      simp [make_dir_df]
    · simp [make_dir_df]

/-- Witness for `grid_grand_100_and_empty_row`: a sector holding one
2-wave binned observation has grand `Total` 100; the empty sector yields
the single zero row. -/
theorem grid_grand_100_wit :
    (make_dir_df [⟨2, PKey.bin "0.0-0.5", PKey.bin "1-2"⟩]).grand = 100 ∧
    (make_dir_df ([] : List SRow)).rowKeys = [PKey.num 0] ∧
    (make_dir_df ([] : List SRow)).grand = 0 := by
  have h1 := (grid_grand_100_and_empty_row
    [⟨2, PKey.bin "0.0-0.5", PKey.bin "1-2"⟩]).1 (by norm_num)
  have h2 := (grid_grand_100_and_empty_row ([] : List SRow)).2 rfl
  exact ⟨h1, h2.1, h2.2.2.2.2.2⟩

/-- C10 (amended): a significant height of exactly 0 or period of exactly
0 falls in no bin (the first cut interval is left-open at 0), and a record
whose `Hs` key or `Tp` key is NaN appears in no interior cell of its
sector grid — every interior cell divides only fully binned wave-counts by
a denominator that does include the NaN-keyed record — yet the record is
not absent from the margins: the grand `Total` cell aggregates every row,
so it still shows 100 (not less) whenever the sector total is nonzero. -/
theorem nan_binned_no_cell (rows : List SRow) (n : SRow)
    (hn : n.hs = PKey.nan ∨ n.tp = PKey.nan) :
    hsKey 0 = PKey.nan ∧ tpKey 0 = PKey.nan ∧
    (∀ l l' : String,
      (make_dir_df (rows ++ [n])).cell (PKey.bin l) (PKey.bin l') =
        if (rows.map (fun r => r.wavecount)).sum + n.wavecount = 0 then 0
        else round2
          ((((rows.filter (fun x => x.hs = PKey.bin l ∧ x.tp = PKey.bin l')).map
              (fun r => r.wavecount)).sum /
            ((rows.map (fun r => r.wavecount)).sum + n.wavecount)) * 100)) ∧
    ((rows.map (fun r => r.wavecount)).sum + n.wavecount ≠ 0 →
      (make_dir_df (rows ++ [n])).grand = 100) := by
  have hk1 : hsKey 0 = PKey.nan := by
    norm_num [hsKey, pdCut, hsBins, hsLabels, List.range_succ]
  have hk2 : tpKey 0 = PKey.nan := by
    norm_num [tpKey, pdCut, tpBins, tpLabels, List.range_succ]
  have hne : rows ++ [n] ≠ [] := by simp
  have hsum : ((rows ++ [n]).map (fun r => r.wavecount)).sum =
      (rows.map (fun r => r.wavecount)).sum + n.wavecount := by simp
  refine ⟨hk1, hk2, ?_, ?_⟩
  · intro l l'
    have e : (make_dir_df (rows ++ [n])).cell (PKey.bin l) (PKey.bin l') =
        if ((rows ++ [n]).map (fun r => r.wavecount)).sum = 0 then 0
        else round2
          (((((rows ++ [n]).filter
              (fun x => x.hs = PKey.bin l ∧ x.tp = PKey.bin l')).map
              (fun r => r.wavecount)).sum /
            ((rows ++ [n]).map (fun r => r.wavecount)).sum) * 100) := by
      simp [make_dir_df, hne]
    have hfil : (rows ++ [n]).filter
        (fun x => x.hs = PKey.bin l ∧ x.tp = PKey.bin l') =
        rows.filter (fun x => x.hs = PKey.bin l ∧ x.tp = PKey.bin l') := by
      rw [List.filter_append]
      have hn1 : [n].filter
          (fun x => x.hs = PKey.bin l ∧ x.tp = PKey.bin l') = [] := by
        rcases hn with h | h <;> simp [List.filter, h]
      rw [hn1, List.append_nil]
    rw [e, hsum, hfil]
  · intro hsum_ne
    exact grand_margin_100 (rows ++ [n]) (by rw [hsum]; exact hsum_ne)

/-- Witness for `nan_binned_no_cell`, at the period-only case: one fully
binned 1-wave record next to a 1-wave record whose height 0.3 is binned
(`0.0-0.5`) but whose period 0 has no bin (`Tp` key NaN).  The NaN-keyed
record is excluded from the `(0.0-0.5, 1-2)` cell's numerator while its
wave inflates the denominator, and the grand `Total` still shows 100. -/
theorem nan_binned_no_cell_witness :
    hsKey 0 = PKey.nan ∧ tpKey 0 = PKey.nan ∧
    (make_dir_df ([⟨1, PKey.bin "0.0-0.5", PKey.bin "1-2"⟩] ++
      [⟨1, PKey.bin "0.0-0.5", PKey.nan⟩])).cell
        (PKey.bin "0.0-0.5") (PKey.bin "1-2") =
      round2 ((1 : ℚ) / (1 + 1) * 100) ∧
    (make_dir_df ([⟨1, PKey.bin "0.0-0.5", PKey.bin "1-2"⟩] ++
      [⟨1, PKey.bin "0.0-0.5", PKey.nan⟩])).grand = 100 := by
  have h := nan_binned_no_cell [⟨1, PKey.bin "0.0-0.5", PKey.bin "1-2"⟩]
    ⟨1, PKey.bin "0.0-0.5", PKey.nan⟩ (Or.inr rfl)
  refine ⟨h.1, h.2.1, ?_, h.2.2.2 (by norm_num)⟩
  rw [h.2.2.1 "0.0-0.5" "1-2"]
  norm_num [List.filter]

/-- C10 counterexample: in the sector `nanRows` — one NaN-keyed record and
one binned record, one wave each — the claim predicts a grand `Total`
below 100 (the NaN-keyed record should be absent from every cell while its
wave inflates the denominator, which would put 50 in the grand cell), but
the grand margin aggregates every row and shows exactly 100. -/
theorem nan_obs_grand_still_100 :
    (make_dir_df nanRows).grand = 100 ∧
    ¬ (make_dir_df nanRows).grand < 100 := by
  have h : (make_dir_df nanRows).grand = 100 :=
    grand_margin_100 nanRows (by norm_num [nanRows])
  exact ⟨h, by rw [h]; norm_num⟩
